import Mathlib

/-!
Verification model of `src/batches.rs` from the meilisearch-rust fork:
the Meilisearch "batches" API client layer.  The Rust code consists of
serde-derived (de)serializable data types (`Batch`, `BatchStats`,
`BatchesResults`, `Statuses`, `Types`, `BatchStrategy`) and a query
builder (`BatchesQuery`) whose serde attributes decide which request
parameters are emitted.

The embedding models JSON documents as an inductive type and translates
the serde-generated deserializers / serializers for each type, following
the field attributes in the source (`rename_all`, `skip_serializing_if`,
`default`, `with = "time::serde::rfc3339::option"`, `#[serde(other)]`).

One caveat: the derived `Serialize` for `BatchesQuery` does not actually
exist.  The struct puts `#[serde(skip_serializing_if = "Vec::is_empty")]`
on its struct-typed `statuses: Statuses` and `types: Types` fields, and
serde-derive expands that to `Vec::is_empty(&self.statuses)`, which is
ill-typed (`&Statuses` is not `&Vec<_>` and `Statuses` has no `Deref`),
so the impl fails to compile and the source defines no query
serialization at all.  The serializer below is therefore an explicitly
spec-modelled definition of the intended contract; see its doc comment.
JSON numbers are modelled as integers: every numeric field exercised by
the properties below holds integral values, and the two `f64` fields
(`percentage`, `blocking_ratio`) are only ever carried around, never
computed with.
-/

set_option autoImplicit false

namespace MeiliBatches

/-- Model of a JSON document (numbers restricted to integers, see above). -/
inductive Json where
  | null : Json
  | bool (b : Bool) : Json
  | num (n : Int) : Json
  | str (s : String) : Json
  | arr (items : List Json) : Json
  | obj (fields : List (String × Json)) : Json

/-- First value bound to `name` in a JSON object's field list
(serde reads fields by name; unknown fields are ignored by default). -/
def lookupField : List (String × Json) → String → Option Json
  | [], _ => none
  | (k, v) :: rest, name => if k == name then some v else lookupField rest name

/-- Whether a decode succeeded (`Result::is_ok` on serde's output). -/
def exceptOk {α : Type} : Except String α → Bool
  | .ok _ => true
  | .error _ => false

/-- `i64` decoding: a JSON integer within the 64-bit signed range. -/
def asI64 : Json → Except String Int
  | .num n => if -(2 ^ 63) ≤ n ∧ n < 2 ^ 63 then .ok n else .error "i64 out of range"
  | _ => .error "expected i64"

/-- `i32` decoding: a JSON integer within the 32-bit signed range. -/
def asI32 : Json → Except String Int
  | .num n => if -(2 ^ 31) ≤ n ∧ n < 2 ^ 31 then .ok n else .error "i32 out of range"
  | _ => .error "expected i32"

/-- `u32` decoding: a JSON integer within the 32-bit unsigned range. -/
def asU32 : Json → Except String Nat
  | .num n => if 0 ≤ n ∧ n < 2 ^ 32 then .ok n.toNat else .error "u32 out of range"
  | _ => .error "expected u32"

/-- `String` decoding. -/
def asStr : Json → Except String String
  | .str s => .ok s
  | _ => .error "expected string"

/-- A required field (serde: missing required field is a decode error). -/
def reqField (fields : List (String × Json)) (name : String) : Except String Json :=
  match lookupField fields name with
  | some v => .ok v
  | none => .error ("missing field " ++ name)

/-- A required field that must be a JSON array (serde's `Vec<T>` carrier). -/
def arrField (fields : List (String × Json)) (name : String) :
    Except String (List Json) :=
  match lookupField fields name with
  | some (.arr items) => .ok items
  | none => .error ("missing field " ++ name)
  | some _ => .error ("expected an array in " ++ name)

/-- A required field that must be a JSON object (serde's map carrier). -/
def objField (fields : List (String × Json)) (name : String) :
    Except String (List (String × Json)) :=
  match lookupField fields name with
  | some (.obj entries) => .ok entries
  | none => .error ("missing field " ++ name)
  | some _ => .error ("expected an object in " ++ name)

/-- A required numeric field with no range constraint (`f64` carrier;
the wire numbers exercised here are integral, see the module comment). -/
def numField (fields : List (String × Json)) (name : String) : Except String Int :=
  match lookupField fields name with
  | some (.num n) => .ok n
  | none => .error ("missing field " ++ name)
  | some _ => .error ("expected a number in " ++ name)

/-- serde's treatment of a present-or-absent `Option<u32>` value: absent or
`null` is `None`, an in-range integer is `Some`, anything else is an error. -/
def decodeOptU32Val : Option Json → Except String (Option Nat)
  | none => .ok none
  | some .null => .ok none
  | some v => do
    let n ← asU32 v
    .ok (some n)

/-- serde's treatment of an `Option<u32>` field, by name. -/
def optU32Field (fields : List (String × Json)) (name : String) :
    Except String (Option Nat) :=
  decodeOptU32Val (lookupField fields name)

/-- Reason why the auto batcher stopped batching tasks
(`enum BatchStrategy`, `rename_all = "snake_case"`, `#[serde(other)] Unknown`). -/
inductive BatchStrategy where
  | sizeLimitReached : BatchStrategy
  | timeLimitReached : BatchStrategy
  | unknown : BatchStrategy
deriving DecidableEq

/-- Wire string of each variant under `rename_all = "snake_case"`
(serde's `Serialize` also emits the `other` variant by its renamed name). -/
def BatchStrategy.toWire : BatchStrategy → String
  | .sizeLimitReached => "size_limit_reached"
  | .timeLimitReached => "time_limit_reached"
  | .unknown => "unknown"

/-- serde-generated deserializer for `BatchStrategy`: known snake_case tags map to
their variants and, because of `#[serde(other)]`, every other string maps to
`Unknown`; only a non-string JSON value is a decode error. -/
def deserializeBatchStrategy : Json → Except String BatchStrategy
  | .str s =>
    if s == "size_limit_reached" then .ok .sizeLimitReached
    else if s == "time_limit_reached" then .ok .timeLimitReached
    else .ok .unknown
  | _ => .error "expected a string batch strategy"

/-- Sparse histogram of task statuses (`struct Statuses`, all fields `Option<u32>`,
field names serialized verbatim — no `rename_all` on this struct). -/
structure Statuses where
  enqueued : Option Nat
  processing : Option Nat
  succeeded : Option Nat
  failed : Option Nat
  canceled : Option Nat
deriving DecidableEq

/-- `Statuses::default()`: every count absent. -/
def Statuses.default : Statuses := ⟨none, none, none, none, none⟩

/-- Modelled from the spec: the emptiness test for the query builder's
`statuses` filter ("each collection field ... is included only if
non-empty") — no status category is selected.  The source names
`Vec::is_empty` in the field's `skip_serializing_if` attribute, but that
predicate cannot apply to this struct-typed field (see the module
comment), so the test the contract needs is modelled from the spec. -/
def Statuses.isEmptyH (s : Statuses) : Bool :=
  s.enqueued.isNone && s.processing.isNone && s.succeeded.isNone &&
  s.failed.isNone && s.canceled.isNone

/-- serde serialization of an `Option<u32>` field without
`skip_serializing_if`: `None` becomes `null`. -/
def encodeOptU32 : Option Nat → Json
  | none => .null
  | some n => .num n

/-- serde-generated `Serialize` for `Statuses`: every field is emitted
(no `skip_serializing_if` on the struct's fields), `None` as `null`. -/
def encodeStatuses (s : Statuses) : Json :=
  .obj [("enqueued", encodeOptU32 s.enqueued),
        ("processing", encodeOptU32 s.processing),
        ("succeeded", encodeOptU32 s.succeeded),
        ("failed", encodeOptU32 s.failed),
        ("canceled", encodeOptU32 s.canceled)]

/-- serde-generated `Deserialize` for `Statuses`. -/
def decodeStatuses : Json → Except String Statuses
  | .obj fields => do
    let enqueued ← optU32Field fields "enqueued"
    let processing ← optU32Field fields "processing"
    let succeeded ← optU32Field fields "succeeded"
    let failed ← optU32Field fields "failed"
    let canceled ← optU32Field fields "canceled"
    .ok ⟨enqueued, processing, succeeded, failed, canceled⟩
  | _ => .error "expected an object for Statuses"

/-- The `u32` range invariant carried by the Rust type: every present count
fits in 32 bits. -/
def optU32InRange : Option Nat → Bool
  | none => true
  | some n => decide (n < 2 ^ 32)

/-- All present `Statuses` counts fit in `u32` (guaranteed by the Rust type). -/
def Statuses.inRange (s : Statuses) : Bool :=
  optU32InRange s.enqueued && optU32InRange s.processing &&
  optU32InRange s.succeeded && optU32InRange s.failed && optU32InRange s.canceled

/-- Sparse histogram of task types (`struct Types`, all fields `Option<u32>`,
`rename_all = "camelCase"`). -/
structure Types where
  indexCreation : Option Nat
  indexUpdate : Option Nat
  indexDeletion : Option Nat
  indexSwap : Option Nat
  documentAdditionOrUpdate : Option Nat
  documentDeletion : Option Nat
  settingsUpdate : Option Nat
  dumpCreation : Option Nat
  taskCancellation : Option Nat
  taskDeletion : Option Nat
  upgradeDatabase : Option Nat
  documentEdition : Option Nat
  snapshotCreation : Option Nat
deriving DecidableEq

/-- `Types::default()`: every count absent. -/
def Types.default : Types :=
  ⟨none, none, none, none, none, none, none, none, none, none, none, none, none⟩

/-- Modelled from the spec: the emptiness test for the query builder's
`types` filter — no type category is selected.  As with
`Statuses.isEmptyH`, the source's `Vec::is_empty` skip predicate is
ill-typed for this struct-typed field, so the test is modelled from the
spec's "included only if non-empty" contract. -/
def Types.isEmptyH (t : Types) : Bool :=
  t.indexCreation.isNone && t.indexUpdate.isNone && t.indexDeletion.isNone &&
  t.indexSwap.isNone && t.documentAdditionOrUpdate.isNone &&
  t.documentDeletion.isNone && t.settingsUpdate.isNone &&
  t.dumpCreation.isNone && t.taskCancellation.isNone && t.taskDeletion.isNone &&
  t.upgradeDatabase.isNone && t.documentEdition.isNone && t.snapshotCreation.isNone

/-- serde-generated `Serialize` for `Types` (camelCase field names,
`None` as `null`). -/
def encodeTypes (t : Types) : Json :=
  .obj [("indexCreation", encodeOptU32 t.indexCreation),
        ("indexUpdate", encodeOptU32 t.indexUpdate),
        ("indexDeletion", encodeOptU32 t.indexDeletion),
        ("indexSwap", encodeOptU32 t.indexSwap),
        ("documentAdditionOrUpdate", encodeOptU32 t.documentAdditionOrUpdate),
        ("documentDeletion", encodeOptU32 t.documentDeletion),
        ("settingsUpdate", encodeOptU32 t.settingsUpdate),
        ("dumpCreation", encodeOptU32 t.dumpCreation),
        ("taskCancellation", encodeOptU32 t.taskCancellation),
        ("taskDeletion", encodeOptU32 t.taskDeletion),
        ("upgradeDatabase", encodeOptU32 t.upgradeDatabase),
        ("documentEdition", encodeOptU32 t.documentEdition),
        ("snapshotCreation", encodeOptU32 t.snapshotCreation)]

/-- serde-generated `Deserialize` for `Types`. -/
def decodeTypes : Json → Except String Types
  | .obj fields => do
    let indexCreation ← optU32Field fields "indexCreation"
    let indexUpdate ← optU32Field fields "indexUpdate"
    let indexDeletion ← optU32Field fields "indexDeletion"
    let indexSwap ← optU32Field fields "indexSwap"
    let documentAdditionOrUpdate ← optU32Field fields "documentAdditionOrUpdate"
    let documentDeletion ← optU32Field fields "documentDeletion"
    let settingsUpdate ← optU32Field fields "settingsUpdate"
    let dumpCreation ← optU32Field fields "dumpCreation"
    let taskCancellation ← optU32Field fields "taskCancellation"
    let taskDeletion ← optU32Field fields "taskDeletion"
    let upgradeDatabase ← optU32Field fields "upgradeDatabase"
    let documentEdition ← optU32Field fields "documentEdition"
    let snapshotCreation ← optU32Field fields "snapshotCreation"
    .ok ⟨indexCreation, indexUpdate, indexDeletion, indexSwap,
         documentAdditionOrUpdate, documentDeletion, settingsUpdate,
         dumpCreation, taskCancellation, taskDeletion, upgradeDatabase,
         documentEdition, snapshotCreation⟩
  | _ => .error "expected an object for Types"

/-- All present `Types` counts fit in `u32` (guaranteed by the Rust type). -/
def Types.inRange (t : Types) : Bool :=
  optU32InRange t.indexCreation && optU32InRange t.indexUpdate &&
  optU32InRange t.indexDeletion && optU32InRange t.indexSwap &&
  optU32InRange t.documentAdditionOrUpdate && optU32InRange t.documentDeletion &&
  optU32InRange t.settingsUpdate && optU32InRange t.dumpCreation &&
  optU32InRange t.taskCancellation && optU32InRange t.taskDeletion &&
  optU32InRange t.upgradeDatabase && optU32InRange t.documentEdition &&
  optU32InRange t.snapshotCreation

/-- Model of `time::OffsetDateTime`: broken-down civil time plus a UTC offset
in whole seconds. -/
structure OffsetDateTime where
  year : Int
  month : Nat
  day : Nat
  hour : Nat
  minute : Nat
  second : Nat
  nanosecond : Nat
  offsetSeconds : Int
deriving DecidableEq

/-- Numeric value of a decimal digit, if the character is one. -/
def digitVal (c : Char) : Option Nat :=
  if c.isDigit then some (c.toNat - 48) else none

/-- Two-digit decimal number from two characters. -/
def twoDigits (a b : Char) : Option Nat := do
  let x ← digitVal a
  let y ← digitVal b
  some (10 * x + y)

/-- Nanoseconds from a fractional-second digit string (at most nine digits
are significant; fewer digits scale up). -/
def fracNanos (ds : List Char) : Option Nat :=
  if ds.isEmpty then none
  else
    (ds.take 9).foldl (fun acc c => do
      let a ← acc
      let d ← digitVal c
      some (10 * a + d)) (some 0) |>.map (· * 10 ^ (9 - min ds.length 9))

/-- UTC offset tail of an RFC 3339 timestamp: `Z`/`z` or `±hh:mm`. -/
def parseOffsetTail : List Char → Option Int
  | ['Z'] => some 0
  | ['z'] => some 0
  | [sign, h1, h2, ':', m1, m2] => do
    let h ← twoDigits h1 h2
    let m ← twoDigits m1 m2
    if h < 24 ∧ m < 60 then
      let total : Int := (h * 3600 + m * 60 : Nat)
      if sign = '+' then some total
      else if sign = '-' then some (-total)
      else none
    else none
  | _ => none

/-- Modelled from the spec: the external `time::serde::rfc3339` parser used by
`Batch`'s `started_at` / `finished_at` fields ("a standard textual date-time
format with timezone"); the crate itself is an out-of-scope collaborator.
Accepts `YYYY-MM-DDThh:mm:ss[.frac](Z|±hh:mm)` with `T`/`t` as separator. -/
def parseRfc3339 (s : String) : Option OffsetDateTime :=
  match s.toList with
  | y1 :: y2 :: y3 :: y4 :: '-' :: mo1 :: mo2 :: '-' :: d1 :: d2 ::
      t :: h1 :: h2 :: ':' :: mi1 :: mi2 :: ':' :: s1 :: s2 :: rest => do
    if t = 'T' ∨ t = 't' then
      let yh ← twoDigits y1 y2
      let yl ← twoDigits y3 y4
      let mo ← twoDigits mo1 mo2
      let d ← twoDigits d1 d2
      let h ← twoDigits h1 h2
      let mi ← twoDigits mi1 mi2
      let sec ← twoDigits s1 s2
      let (nano, offTail) ←
        match rest with
        | '.' :: more =>
          let ds := more.takeWhile Char.isDigit
          (fracNanos ds).map (fun n => (n, more.dropWhile Char.isDigit))
        | other => some (0, other)
      let off ← parseOffsetTail offTail
      if 1 ≤ mo ∧ mo ≤ 12 ∧ 1 ≤ d ∧ d ≤ 31 ∧ h < 24 ∧ mi < 60 ∧ sec < 60 then
        some ⟨(100 * yh + yl : Nat), mo, d, h, mi, sec, nano, off⟩
      else none
    else none
  | _ => none

/-- Decimal rendering of a `Nat` left-padded with zeros to `width` digits. -/
def padNat (width n : Nat) : String :=
  let s := toString n
  String.mk (List.replicate (width - s.length) '0') ++ s

/-- `[year]` with the default modifiers: four digits, sign only when negative. -/
def formatYear (y : Int) : String :=
  if y < 0 then "-" ++ padNat 4 y.natAbs else padNat 4 y.natAbs

/-- `[subsecond]` with the default `1+` digit count: the nine-digit nanosecond
field with trailing zeros removed, but at least one digit. -/
def formatSubsecond (nano : Nat) : String :=
  let digits := (padNat 9 nano).toList
  let trimmed := (digits.reverse.dropWhile (· = '0')).reverse
  if trimmed.isEmpty then "0" else String.mk trimmed

/-- `[offset_hour sign:mandatory]:[offset_minute]:[offset_second]`. -/
def formatOffsetHMS (offsetSeconds : Int) : String :=
  let sign := if offsetSeconds < 0 then "-" else "+"
  let a := offsetSeconds.natAbs
  sign ++ padNat 2 (a / 3600) ++ ":" ++ padNat 2 (a % 3600 / 60) ++ ":" ++ padNat 2 (a % 60)

/-- The human-readable string the `time` crate's default
`impl Serialize for OffsetDateTime` produces (its serde module's format
description `[year]-[month]-[day] [hour]:[minute]:[second].[subsecond]
[offset_hour sign:mandatory]:[offset_minute]:[offset_second]`).  This is
what the query builder's timestamp bounds go through, because
`src/batches.rs` puts no `serialize_with`/`with` attribute on them. -/
def serdeDefaultDateTimeWire (d : OffsetDateTime) : String :=
  formatYear d.year ++ "-" ++ padNat 2 d.month ++ "-" ++ padNat 2 d.day ++ " " ++
  padNat 2 d.hour ++ ":" ++ padNat 2 d.minute ++ ":" ++ padNat 2 d.second ++ "." ++
  formatSubsecond d.nanosecond ++ " " ++ formatOffsetHMS d.offsetSeconds

/-- Offset tail recognizer for the RFC 3339 grammar (`Z`/`z` or `±hh:mm`). -/
def rfc3339OffsetOk : List Char → Bool
  | ['Z'] => true
  | ['z'] => true
  | [sign, h1, h2, ':', m1, m2] =>
    (sign == '+' || sign == '-') && h1.isDigit && h2.isDigit && m1.isDigit && m2.isDigit
  | _ => false

/-- Optional `.digits` fraction followed by the offset, per RFC 3339. -/
def rfc3339TailOk : List Char → Bool
  | '.' :: more =>
    !(more.takeWhile Char.isDigit).isEmpty && rfc3339OffsetOk (more.dropWhile Char.isDigit)
  | other => rfc3339OffsetOk other

/-- Modelled from the spec: recognizer for the RFC 3339 `date-time` grammar
("RFC 3339 textual date-time string with timezone"): `full-date "T" partial-time
time-offset`, where the date is exactly `YYYY-MM-DD`, the separator is `T`/`t`,
and the offset is `Z`/`z` or `±hh:mm`. -/
def isRfc3339DateTime (s : String) : Bool :=
  match s.toList with
  | y1 :: y2 :: y3 :: y4 :: '-' :: mo1 :: mo2 :: '-' :: d1 :: d2 ::
      t :: h1 :: h2 :: ':' :: mi1 :: mi2 :: ':' :: s1 :: s2 :: rest =>
    [y1, y2, y3, y4, mo1, mo2, d1, d2, h1, h2, mi1, mi2, s1, s2].all Char.isDigit &&
    (t == 'T' || t == 't') && rfc3339TailOk rest
  | _ => false

/-- One named phase of progress (`struct BatchProgressStep`, camelCase). -/
structure BatchProgressStep where
  currentStep : String
  finished : Int
  total : Int
deriving DecidableEq

/-- Snapshot of in-flight completion state (`struct BatchProgress`).
`percentage: f64` is modelled by the integral JSON number carried on the wire. -/
structure BatchProgress where
  steps : List BatchProgressStep
  percentage : Int
deriving DecidableEq

/-- serde-generated `Deserialize` for `BatchProgressStep`. -/
def decodeBatchProgressStep : Json → Except String BatchProgressStep
  | .obj fields => do
    let currentStep ← reqField fields "currentStep" >>= asStr
    let finished ← reqField fields "finished" >>= asI32
    let total ← reqField fields "total" >>= asI32
    .ok ⟨currentStep, finished, total⟩
  | _ => .error "expected an object for BatchProgressStep"

/-- Element-wise decoding of a JSON array (serde's `Vec<T>` deserializer). -/
def decodeListWith {α : Type} (dec : Json → Except String α) :
    List Json → Except String (List α)
  | [] => .ok []
  | j :: rest => do
    let x ← dec j
    let xs ← decodeListWith dec rest
    .ok (x :: xs)

/-- serde-generated `Deserialize` for `BatchProgress`. -/
def decodeBatchProgress : Json → Except String BatchProgress
  | .obj fields => do
    let stepsJson ← arrField fields "steps"
    let steps ← decodeListWith decodeBatchProgressStep stepsJson
    let percentage ← numField fields "percentage"
    .ok ⟨steps, percentage⟩
  | _ => .error "expected an object for BatchProgress"

/-- Write-channel congestion report (`struct BatchWriteChannelCongestion`).
`blocking_ratio: f64` is modelled by the integral JSON number on the wire. -/
structure BatchWriteChannelCongestion where
  attempts : Int
  blockingAttempts : Int
  blockingRatio : Int
deriving DecidableEq

/-- serde-generated `Deserialize` for `BatchWriteChannelCongestion`. -/
def decodeBatchWriteChannelCongestion : Json → Except String BatchWriteChannelCongestion
  | .obj fields => do
    let attempts ← reqField fields "attempts" >>= asI32
    let blockingAttempts ← reqField fields "blockingAttempts" >>= asI32
    let blockingRatio ← numField fields "blockingRatio"
    .ok ⟨attempts, blockingAttempts, blockingRatio⟩
  | _ => .error "expected an object for BatchWriteChannelCongestion"

/-- Internal database size report (`struct BatchInternalDatabaseSizes`,
camelCase, all fields required `String`s). -/
structure BatchInternalDatabaseSizes where
  externalDocumentsId : String
  wordDocsId : String
  wordPairProximityIds : String
  wordPositionDocIds : String
  wordFidDocIds : String
  fieldIdWordCountDocIds : String
  documents : String
deriving DecidableEq

/-- serde-generated `Deserialize` for `BatchInternalDatabaseSizes`. -/
def decodeBatchInternalDatabaseSizes : Json → Except String BatchInternalDatabaseSizes
  | .obj fields => do
    let externalDocumentsId ← reqField fields "externalDocumentsId" >>= asStr
    let wordDocsId ← reqField fields "wordDocsId" >>= asStr
    let wordPairProximityIds ← reqField fields "wordPairProximityIds" >>= asStr
    let wordPositionDocIds ← reqField fields "wordPositionDocIds" >>= asStr
    let wordFidDocIds ← reqField fields "wordFidDocIds" >>= asStr
    let fieldIdWordCountDocIds ← reqField fields "fieldIdWordCountDocIds" >>= asStr
    let documents ← reqField fields "documents" >>= asStr
    .ok ⟨externalDocumentsId, wordDocsId, wordPairProximityIds, wordPositionDocIds,
         wordFidDocIds, fieldIdWordCountDocIds, documents⟩
  | _ => .error "expected an object for BatchInternalDatabaseSizes"

/-- `HashMap<String, i32>` decoding (`indexed_uids`): every member of the
object must be an in-range integer.  The map is modelled as its entry list. -/
def decodeStrI32Map : List (String × Json) → Except String (List (String × Int))
  | [] => .ok []
  | (k, v) :: rest => do
    let n ← asI32 v
    let tail ← decodeStrI32Map rest
    .ok ((k, n) :: tail)

/-- `HashMap<String, String>` decoding (`progress_trace`). -/
def decodeStrStrMap : List (String × Json) → Except String (List (String × String))
  | [] => .ok []
  | (k, v) :: rest => do
    let s ← asStr v
    let tail ← decodeStrStrMap rest
    .ok ((k, s) :: tail)

/-- Aggregate counters for a batch (`struct BatchStats`, camelCase; every
field is required — none is `Option` and none has a serde `default`). -/
structure BatchStats where
  totalNbTasks : Int
  status : Statuses
  types : Types
  indexedUids : List (String × Int)
  progressTrace : List (String × String)
  writeChannelCongestion : BatchWriteChannelCongestion
  internalDatabaseSizes : BatchInternalDatabaseSizes
deriving DecidableEq

/-- serde-generated `Deserialize` for `BatchStats`: all seven fields
(`totalNbTasks`, `status`, `types`, `indexedUids`, `progressTrace`,
`writeChannelCongestion`, `internalDatabaseSizes`) are required. -/
def decodeBatchStats : Json → Except String BatchStats
  | .obj fields => do
    let totalNbTasks ← reqField fields "totalNbTasks" >>= asI32
    let status ← reqField fields "status" >>= decodeStatuses
    let types ← reqField fields "types" >>= decodeTypes
    let indexedUidsEntries ← objField fields "indexedUids"
    let indexedUids ← decodeStrI32Map indexedUidsEntries
    let progressTraceEntries ← objField fields "progressTrace"
    let progressTrace ← decodeStrStrMap progressTraceEntries
    let writeChannelCongestion ←
      reqField fields "writeChannelCongestion" >>= decodeBatchWriteChannelCongestion
    let internalDatabaseSizes ←
      reqField fields "internalDatabaseSizes" >>= decodeBatchInternalDatabaseSizes
    .ok ⟨totalNbTasks, status, types, indexedUids, progressTrace,
         writeChannelCongestion, internalDatabaseSizes⟩
  | _ => .error "expected an object for BatchStats"

/-- One server-side unit of asynchronous work (`struct Batch`, camelCase).
`uid` and `stats` are the required fields; the rest are `Option`s
(`started_at`/`finished_at` additionally carry `#[serde(default,
with = "time::serde::rfc3339::option")]`). -/
structure Batch where
  uid : Int
  progress : Option BatchProgress
  stats : BatchStats
  duration : Option String
  startedAt : Option OffsetDateTime
  finishedAt : Option OffsetDateTime
  batchStrategy : Option BatchStrategy
deriving DecidableEq

/-- serde's handling of an `Option<T>` struct field: absent and `null` both
decode to `None`; a present non-null value must decode. -/
def optField {α : Type} (fields : List (String × Json)) (name : String)
    (dec : Json → Except String α) : Except String (Option α) :=
  match lookupField fields name with
  | none => .ok none
  | some .null => .ok none
  | some v => do
    let x ← dec v
    .ok (some x)

/-- `time::serde::rfc3339::option` deserialization (with `default` for the
absent case): absent or `null` is `None`, a string must parse as RFC 3339. -/
def rfc3339OptField (fields : List (String × Json)) (name : String) :
    Except String (Option OffsetDateTime) :=
  match lookupField fields name with
  | none => .ok none
  | some .null => .ok none
  | some (.str s) =>
    match parseRfc3339 s with
    | some d => .ok (some d)
    | none => .error ("invalid RFC 3339 timestamp in " ++ name)
  | some _ => .error ("expected a string timestamp in " ++ name)

/-- serde-generated `Deserialize` for `Batch`. -/
def decodeBatch : Json → Except String Batch
  | .obj fields => do
    let uid ← reqField fields "uid" >>= asI64
    let progress ← optField fields "progress" decodeBatchProgress
    let stats ← reqField fields "stats" >>= decodeBatchStats
    let duration ← optField fields "duration" asStr
    let startedAt ← rfc3339OptField fields "startedAt"
    let finishedAt ← rfc3339OptField fields "finishedAt"
    let batchStrategy ← optField fields "batchStrategy" deserializeBatchStrategy
    .ok ⟨uid, progress, stats, duration, startedAt, finishedAt, batchStrategy⟩
  | _ => .error "expected an object for Batch"

/-- One page of query results (`struct BatchesResults`, camelCase;
`from` and `next` are `Option<u32>`). -/
structure BatchesResults where
  results : List Batch
  total : Nat
  limit : Nat
  fromCursor : Option Nat
  nextCursor : Option Nat
deriving DecidableEq

/-- serde-generated `Deserialize` for `BatchesResults`: `results`, `total`
and `limit` are required; `from`/`next` decode to `None` when absent or
`null`; fields unknown to the client are ignored (serde default). -/
def decodeBatchesResults : Json → Except String BatchesResults
  | .obj fields => do
    let resultItems ← arrField fields "results"
    let results ← decodeListWith decodeBatch resultItems
    let total ← reqField fields "total" >>= asU32
    let limit ← reqField fields "limit" >>= asU32
    let fromCursor ← optU32Field fields "from"
    let nextCursor ← optU32Field fields "next"
    .ok ⟨results, total, limit, fromCursor, nextCursor⟩
  | _ => .error "expected an object for BatchesResults"

/-- Stand-in for the borrowed `&Client<Http>` reference held by the query
builder (the client itself — HTTP transport, URLs — is an out-of-scope
collaborator; only the identity of the reference matters here). -/
structure ClientRef where
  id : Nat
deriving DecidableEq

/-- Query builder for listing batches (`struct BatchesQuery<'a, Http>`).
Field names and order follow the Rust declaration; `from` is a reserved
word in Lean, so the `from` field is called `fromCursor`. -/
structure BatchesQuery where
  client : ClientRef
  uids : List Int
  batchUids : List Int
  indexUids : List String
  statuses : Statuses
  types : Types
  limit : Option Nat
  fromCursor : Option Nat
  reverse : Bool
  beforeEnqueuedAt : Option OffsetDateTime
  beforeStartedAt : Option OffsetDateTime
  beforeFinishedAt : Option OffsetDateTime
  afterEnqueuedAt : Option OffsetDateTime
  afterStartedAt : Option OffsetDateTime
  afterFinishedAt : Option OffsetDateTime
deriving DecidableEq

/-- `BatchesQuery::new`: binds the client reference, leaves every filter
empty/absent and sets `reverse = false`. -/
def BatchesQuery.new (client : ClientRef) : BatchesQuery :=
  { client := client
    uids := []
    batchUids := []
    indexUids := []
    statuses := Statuses.default
    types := Types.default
    limit := none
    fromCursor := none
    reverse := false
    beforeEnqueuedAt := none
    beforeStartedAt := none
    beforeFinishedAt := none
    afterEnqueuedAt := none
    afterStartedAt := none
    afterFinishedAt := none }

/-- `BatchesQuery::with_limit`: stores the argument in `limit` and returns
the builder (`&mut Self` in Rust; the updated record here). -/
def BatchesQuery.with_limit (q : BatchesQuery) (limit : Nat) : BatchesQuery :=
  { q with limit := some limit }

/-- `BatchesQuery::with_from`: stores the argument in `from` and returns
the builder. -/
def BatchesQuery.with_from (q : BatchesQuery) (f : Nat) : BatchesQuery :=
  { q with fromCursor := some f }

/-- Payload of one serialized request parameter, kept symbolic: the textual
rendering of lists and numbers belongs to the query-string encoder, an
out-of-scope collaborator; only timestamps get a concrete wire string
(through `serdeDefaultDateTimeWire`, see `datetimeParamWire`). -/
inductive ParamValue where
  | nat (n : Nat) : ParamValue
  | bool (b : Bool) : ParamValue
  | intList (l : List Int) : ParamValue
  | strList (l : List String) : ParamValue
  | statuses (s : Statuses) : ParamValue
  | types (t : Types) : ParamValue
  | datetime (d : OffsetDateTime) : ParamValue
deriving DecidableEq

/-- An optional scalar parameter under `skip_serializing_if = "Option::is_none"`. -/
def optParam {α : Type} (name : String) (mk : α → ParamValue) :
    Option α → List (String × ParamValue)
  | none => []
  | some v => [(name, mk v)]

/-- Modelled from the spec: the intended `Serialize` impl for `BatchesQuery`
as a parameter list.  What is missing from the source is the derived impl
itself — serde-derive cannot generate it, because the `Vec::is_empty` skip
predicate on the struct-typed `statuses`/`types` fields is ill-typed (see
the module comment) — so this definition follows the spec's serialization
contract, which coincides with what the remaining, well-typed attributes
prescribe, in the struct's declaration order: `client` is
`skip_serializing`; `uids`/`batchUids`/`indexUids` are skipped when empty;
`statuses`/`types` are skipped under the spec-modelled emptiness tests;
`limit`, `from` and the six timestamp bounds carry
`skip_serializing_if = "Option::is_none"`; `reverse` has no skip attribute
and is always emitted. -/
def serializeBatchesQueryIntended (q : BatchesQuery) : List (String × ParamValue) :=
  (if q.uids.isEmpty then [] else [("uids", ParamValue.intList q.uids)]) ++
  (if q.batchUids.isEmpty then [] else [("batchUids", ParamValue.intList q.batchUids)]) ++
  (if q.indexUids.isEmpty then [] else [("indexUids", ParamValue.strList q.indexUids)]) ++
  (if q.statuses.isEmptyH then [] else [("statuses", ParamValue.statuses q.statuses)]) ++
  (if q.types.isEmptyH then [] else [("types", ParamValue.types q.types)]) ++
  optParam "limit" ParamValue.nat q.limit ++
  optParam "from" ParamValue.nat q.fromCursor ++
  [("reverse", ParamValue.bool q.reverse)] ++
  optParam "beforeEnqueuedAt" ParamValue.datetime q.beforeEnqueuedAt ++
  optParam "beforeStartedAt" ParamValue.datetime q.beforeStartedAt ++
  optParam "beforeFinishedAt" ParamValue.datetime q.beforeFinishedAt ++
  optParam "afterEnqueuedAt" ParamValue.datetime q.afterEnqueuedAt ++
  optParam "afterStartedAt" ParamValue.datetime q.afterStartedAt ++
  optParam "afterFinishedAt" ParamValue.datetime q.afterFinishedAt

/-- Whether a parameter list carries a parameter named `k`. -/
def hasKey (ps : List (String × ParamValue)) (k : String) : Bool :=
  ps.any (fun p => p.1 == k)

/-- Wire string of a serialized timestamp bound: the value the `time`
crate's default `Serialize` impl would hand to the query-string encoder.
This is fixed by the timestamp fields' own declarations — `Option
<OffsetDateTime>` with no `serialize_with`/`with` attribute in
`src/batches.rs` — independently of the (ill-typed) derived struct impl. -/
def datetimeParamWire (d : OffsetDateTime) : String :=
  serdeDefaultDateTimeWire d

/-- The response body of the repository's own `GET /batches/99` test
(`test_get_batch_by_uid_parses_batch_strategy`):
`{"uid":99,"batchStrategy":"size_limit_reached","taskUids":[10,11]}`. -/
def scenarioBJson : Json :=
  .obj [("uid", .num 99),
        ("batchStrategy", .str "size_limit_reached"),
        ("taskUids", .arr [.num 10, .num 11])]

/-- A complete `stats` object: all seven required `BatchStats` fields. -/
def fullStatsJson : Json :=
  .obj [("totalNbTasks", .num 2),
        ("status", .obj [("succeeded", .num 2)]),
        ("types", .obj [("documentAdditionOrUpdate", .num 2)]),
        ("indexedUids", .obj [("movies", .num 2)]),
        ("progressTrace", .obj []),
        ("writeChannelCongestion", .obj [("attempts", .num 1),
                                         ("blockingAttempts", .num 0),
                                         ("blockingRatio", .num 0)]),
        ("internalDatabaseSizes", .obj [("externalDocumentsId", .str "1 KiB"),
                                        ("wordDocsId", .str "1 KiB"),
                                        ("wordPairProximityIds", .str "1 KiB"),
                                        ("wordPositionDocIds", .str "1 KiB"),
                                        ("wordFidDocIds", .str "1 KiB"),
                                        ("fieldIdWordCountDocIds", .str "1 KiB"),
                                        ("documents", .str "2 KiB")])]

/-- The decoded form of `fullStatsJson`. -/
def fullStatsValue : BatchStats :=
  ⟨2, ⟨none, none, some 2, none, none⟩,
   { Types.default with documentAdditionOrUpdate := some 2 },
   [("movies", 2)], [],
   ⟨1, 0, 0⟩,
   ⟨"1 KiB", "1 KiB", "1 KiB", "1 KiB", "1 KiB", "1 KiB", "2 KiB"⟩⟩

/-- A `Batch` JSON carrying only the required fields `uid` and `stats`. -/
def minimalBatchJson : Json :=
  .obj [("uid", .num 7), ("stats", fullStatsJson)]

/-- The decoded form of `minimalBatchJson`: every optional field is `none`. -/
def minimalBatchValue : Batch :=
  ⟨7, none, fullStatsValue, none, none, none, none⟩

/-- `fullStatsJson` with its `internalDatabaseSizes` member removed. -/
def statsJsonNoSizes : Json :=
  .obj [("totalNbTasks", .num 2),
        ("status", .obj [("succeeded", .num 2)]),
        ("types", .obj [("documentAdditionOrUpdate", .num 2)]),
        ("indexedUids", .obj [("movies", .num 2)]),
        ("progressTrace", .obj []),
        ("writeChannelCongestion", .obj [("attempts", .num 1),
                                         ("blockingAttempts", .num 0),
                                         ("blockingRatio", .num 0)])]

/-- A `Batch` JSON whose `stats` object lacks `internalDatabaseSizes`. -/
def batchJsonNoSizes : Json :=
  .obj [("uid", .num 7), ("stats", statsJsonNoSizes)]

/-- The empty results envelope of the repository's query-serialization test:
`{"results":[],"limit":2,"total":0}`. -/
def emptyEnvelopeJson : Json :=
  .obj [("results", .arr []), ("limit", .num 2), ("total", .num 0)]

/-- `emptyEnvelopeJson` extended with a field unknown to the client. -/
def emptyEnvelopeExtraJson : Json :=
  .obj [("results", .arr []), ("limit", .num 2), ("total", .num 0),
        ("serverSideNewField", .str "additive evolution")]

/-- A concrete timestamp bound: 2024-10-11 11:49:53 UTC. -/
def sampleBound : OffsetDateTime := ⟨2024, 10, 11, 11, 49, 53, 0, 0⟩

theorem exceptBind_ok {α β : Type} (a : α) (f : α → Except String β) :
    (Except.ok a >>= f : Except String β) = f a := rfl

theorem exceptBind_err {α β : Type} (e : String) (f : α → Except String β) :
    (Except.error e >>= f : Except String β) = Except.error e := rfl

theorem exceptOk_bind {α β : Type} (e : Except String α) (f : α → Except String β) :
    exceptOk (e >>= f) = true ↔ ∃ a, e = .ok a ∧ exceptOk (f a) = true := by
  cases e <;> simp [exceptOk, exceptBind_ok, exceptBind_err]

theorem bind_ok_inv {α β : Type} {e : Except String α} {f : α → Except String β}
    {b : β} (h : (e >>= f) = .ok b) : ∃ a, e = .ok a ∧ f a = .ok b := by
  cases e with
  | ok a => exact ⟨a, rfl, by simpa [exceptBind_ok] using h⟩
  | error msg => simp [exceptBind_err] at h

theorem reqField_ok_iff {fields : List (String × Json)} {name : String} {v : Json} :
    reqField fields name = .ok v ↔ lookupField fields name = some v := by
  unfold reqField
  cases lookupField fields name <;> simp

theorem lookupField_cons_ne {name k : String} {v : Json}
    {fields : List (String × Json)} (h : name ≠ k) :
    lookupField ((name, v) :: fields) k = lookupField fields k := by
  simp [lookupField, h]

theorem hasKey_append (a b : List (String × ParamValue)) (k : String) :
    hasKey (a ++ b) k = (hasKey a k || hasKey b k) := by
  simp [hasKey]

theorem hasKey_optParam {α : Type} (name : String) (mk : α → ParamValue)
    (o : Option α) (k : String) :
    hasKey (optParam name mk o) k = (o.isSome && (name == k)) := by
  cases o <;> simp [optParam, hasKey]

theorem hasKey_skipEmpty (c : Bool) (name : String) (v : ParamValue) (k : String) :
    hasKey (if c then [] else [(name, v)]) k = (!c && (name == k)) := by
  cases c <;> simp [hasKey]

theorem hasKey_single (name : String) (v : ParamValue) (k : String) :
    hasKey [(name, v)] k = (name == k) := by
  simp [hasKey]

theorem hasKey_serialize (q : BatchesQuery) (k : String) :
    hasKey (serializeBatchesQueryIntended q) k =
      ((!q.uids.isEmpty && ("uids" == k)) ||
       (!q.batchUids.isEmpty && ("batchUids" == k)) ||
       (!q.indexUids.isEmpty && ("indexUids" == k)) ||
       (!q.statuses.isEmptyH && ("statuses" == k)) ||
       (!q.types.isEmptyH && ("types" == k)) ||
       (q.limit.isSome && ("limit" == k)) ||
       (q.fromCursor.isSome && ("from" == k)) ||
       ("reverse" == k) ||
       (q.beforeEnqueuedAt.isSome && ("beforeEnqueuedAt" == k)) ||
       (q.beforeStartedAt.isSome && ("beforeStartedAt" == k)) ||
       (q.beforeFinishedAt.isSome && ("beforeFinishedAt" == k)) ||
       (q.afterEnqueuedAt.isSome && ("afterEnqueuedAt" == k)) ||
       (q.afterStartedAt.isSome && ("afterStartedAt" == k)) ||
       (q.afterFinishedAt.isSome && ("afterFinishedAt" == k))) := by
  simp only [serializeBatchesQueryIntended, hasKey_append, hasKey_optParam,
    hasKey_skipEmpty, hasKey_single, Bool.or_assoc]

theorem decodeBatch_ok_uid {fields : List (String × Json)}
    (h : exceptOk (decodeBatch (.obj fields)) = true) :
    (lookupField fields "uid").isSome = true := by
  simp only [decodeBatch] at h
  obtain ⟨uid, h1, -⟩ := (exceptOk_bind _ _).mp h
  obtain ⟨j, hj, -⟩ := bind_ok_inv h1
  rw [reqField_ok_iff.mp hj]
  rfl

theorem decodeBatch_ok_stats {fields : List (String × Json)}
    (h : exceptOk (decodeBatch (.obj fields)) = true) :
    ∃ j, lookupField fields "stats" = some j ∧ exceptOk (decodeBatchStats j) = true := by
  simp only [decodeBatch] at h
  obtain ⟨uid, -, h⟩ := (exceptOk_bind _ _).mp h
  obtain ⟨progress, -, h⟩ := (exceptOk_bind _ _).mp h
  obtain ⟨stats, h3, -⟩ := (exceptOk_bind _ _).mp h
  obtain ⟨j, hj, hdec⟩ := bind_ok_inv h3
  exact ⟨j, reqField_ok_iff.mp hj, by simp [exceptOk, hdec]⟩

theorem objField_ok_isSome {fields : List (String × Json)} {name : String}
    {entries : List (String × Json)} (h : objField fields name = .ok entries) :
    (lookupField fields name).isSome = true := by
  unfold objField at h
  cases hl : lookupField fields name with
  | some v => rfl
  | none => rw [hl] at h; exact Except.noConfusion h

theorem decodeBatchStats_ok_fields {sfields : List (String × Json)}
    (h : exceptOk (decodeBatchStats (.obj sfields)) = true) :
    (lookupField sfields "totalNbTasks").isSome = true ∧
    (lookupField sfields "status").isSome = true ∧
    (lookupField sfields "types").isSome = true ∧
    (lookupField sfields "indexedUids").isSome = true ∧
    (lookupField sfields "progressTrace").isSome = true ∧
    (lookupField sfields "writeChannelCongestion").isSome = true ∧
    (lookupField sfields "internalDatabaseSizes").isSome = true := by
  simp only [decodeBatchStats] at h
  obtain ⟨a1, h1, h⟩ := (exceptOk_bind _ _).mp h
  obtain ⟨a2, h2, h⟩ := (exceptOk_bind _ _).mp h
  obtain ⟨a3, h3, h⟩ := (exceptOk_bind _ _).mp h
  obtain ⟨a4, h4, h⟩ := (exceptOk_bind _ _).mp h
  obtain ⟨a5, h5, h⟩ := (exceptOk_bind _ _).mp h
  obtain ⟨a6, h6, h⟩ := (exceptOk_bind _ _).mp h
  obtain ⟨a7, h7, h⟩ := (exceptOk_bind _ _).mp h
  obtain ⟨a8, h8, h⟩ := (exceptOk_bind _ _).mp h
  obtain ⟨a9, h9, -⟩ := (exceptOk_bind _ _).mp h
  refine ⟨?_, ?_, ?_, ?_, ?_, ?_, ?_⟩
  · obtain ⟨j, hj, -⟩ := bind_ok_inv h1
    rw [reqField_ok_iff.mp hj]; rfl
  · obtain ⟨j, hj, -⟩ := bind_ok_inv h2
    rw [reqField_ok_iff.mp hj]; rfl
  · obtain ⟨j, hj, -⟩ := bind_ok_inv h3
    rw [reqField_ok_iff.mp hj]; rfl
  · exact objField_ok_isSome h4
  · exact objField_ok_isSome h6
  · obtain ⟨j, hj, -⟩ := bind_ok_inv h8
    rw [reqField_ok_iff.mp hj]; rfl
  · obtain ⟨j, hj, -⟩ := bind_ok_inv h9
    rw [reqField_ok_iff.mp hj]; rfl

theorem decodeBatchesResults_ok_cursors {fields : List (String × Json)}
    {r : BatchesResults} (h : decodeBatchesResults (.obj fields) = .ok r) :
    optU32Field fields "from" = .ok r.fromCursor ∧
    optU32Field fields "next" = .ok r.nextCursor := by
  simp only [decodeBatchesResults] at h
  obtain ⟨items, -, h⟩ := bind_ok_inv h
  obtain ⟨results, -, h⟩ := bind_ok_inv h
  obtain ⟨total, -, h⟩ := bind_ok_inv h
  obtain ⟨limit, -, h⟩ := bind_ok_inv h
  obtain ⟨fc, hf, h⟩ := bind_ok_inv h
  obtain ⟨nc, hn, h⟩ := bind_ok_inv h
  cases h
  exact ⟨hf, hn⟩

theorem decodeOptU32Val_enc (o : Option Nat) (h : optU32InRange o = true) :
    decodeOptU32Val (some (encodeOptU32 o)) = .ok o := by
  cases o with
  | none => simp [decodeOptU32Val, encodeOptU32]
  | some n =>
    have hn : n < 2 ^ 32 := of_decide_eq_true (by simpa [optU32InRange] using h)
    have hn2 : n < 4294967296 := by simpa using hn
    simp [decodeOptU32Val, encodeOptU32, asU32, exceptBind_ok,
      Int.natCast_nonneg, hn2]

theorem decodeStatuses_encodeStatuses (s : Statuses) (h : s.inRange = true) :
    decodeStatuses (encodeStatuses s) = .ok s := by
  obtain ⟨e, p, su, f, c⟩ := s
  simp only [Statuses.inRange, Bool.and_eq_true] at h
  obtain ⟨⟨⟨⟨h1, h2⟩, h3⟩, h4⟩, h5⟩ := h
  simp only [encodeStatuses, decodeStatuses]
  simp [optU32Field, lookupField, exceptBind_ok,
    decodeOptU32Val_enc e h1, decodeOptU32Val_enc p h2, decodeOptU32Val_enc su h3,
    decodeOptU32Val_enc f h4, decodeOptU32Val_enc c h5]

theorem decodeTypes_encodeTypes (t : Types) (h : t.inRange = true) :
    decodeTypes (encodeTypes t) = .ok t := by
  obtain ⟨a, b, c, d, e, f, g, i, j, k, l, m, n⟩ := t
  simp only [Types.inRange, Bool.and_eq_true] at h
  obtain ⟨⟨⟨⟨⟨⟨⟨⟨⟨⟨⟨⟨h1, h2⟩, h3⟩, h4⟩, h5⟩, h6⟩, h7⟩, h8⟩, h9⟩, h10⟩,
    h11⟩, h12⟩, h13⟩ := h
  simp only [encodeTypes, decodeTypes]
  simp [optU32Field, lookupField, exceptBind_ok,
    decodeOptU32Val_enc a h1, decodeOptU32Val_enc b h2, decodeOptU32Val_enc c h3,
    decodeOptU32Val_enc d h4, decodeOptU32Val_enc e h5, decodeOptU32Val_enc f h6,
    decodeOptU32Val_enc g h7, decodeOptU32Val_enc i h8, decodeOptU32Val_enc j h9,
    decodeOptU32Val_enc k h10, decodeOptU32Val_enc l h11, decodeOptU32Val_enc m h12,
    decodeOptU32Val_enc n h13]

/-- Claim C1: both known wire strings of the stopping-strategy field decode to
their matching symbolic variants, and every other string decodes successfully
to the `Unknown` variant — never a decode failure. -/
theorem batchStrategy_decoding_total :
    deserializeBatchStrategy (.str "size_limit_reached") = .ok .sizeLimitReached ∧
    deserializeBatchStrategy (.str "time_limit_reached") = .ok .timeLimitReached ∧
    ∀ s : String, s ≠ "size_limit_reached" → s ≠ "time_limit_reached" →
      deserializeBatchStrategy (.str s) = .ok .unknown := by
  refine ⟨rfl, rfl, fun s h1 h2 => ?_⟩
  simp [deserializeBatchStrategy, h1, h2]

/-- Witness for C1: a concrete unknown wire string decodes to `Unknown`. -/
theorem batchStrategy_decoding_total_witness :
    "brand_new_strategy" ≠ "size_limit_reached" ∧
    "brand_new_strategy" ≠ "time_limit_reached" ∧
    deserializeBatchStrategy (.str "brand_new_strategy") = .ok .unknown :=
  ⟨by decide, by decide,
   batchStrategy_decoding_total.2.2 "brand_new_strategy" (by decide) (by decide)⟩

/-- Claim C2 (theorem for the intended contract): the claimed serialization
behavior does not exist in the frozen source — the derived `Serialize` for
`BatchesQuery` is ill-typed because of the `Vec::is_empty` skip predicate on
the struct-typed `statuses`/`types` fields (see the module comment) — so
this theorem settles the claim against the spec-modelled intended
serializer: each scalar optional field is carried exactly when set, each
collection field exactly when non-empty, `reverse` always; a fresh builder
serializes to exactly the single parameter `reverse=false`. -/
theorem batchesQuery_param_presence :
    (∀ q : BatchesQuery,
      hasKey (serializeBatchesQueryIntended q) "uids" = !q.uids.isEmpty ∧
      hasKey (serializeBatchesQueryIntended q) "batchUids" = !q.batchUids.isEmpty ∧
      hasKey (serializeBatchesQueryIntended q) "indexUids" = !q.indexUids.isEmpty ∧
      hasKey (serializeBatchesQueryIntended q) "statuses" = !q.statuses.isEmptyH ∧
      hasKey (serializeBatchesQueryIntended q) "types" = !q.types.isEmptyH ∧
      hasKey (serializeBatchesQueryIntended q) "limit" = q.limit.isSome ∧
      hasKey (serializeBatchesQueryIntended q) "from" = q.fromCursor.isSome ∧
      hasKey (serializeBatchesQueryIntended q) "reverse" = true ∧
      hasKey (serializeBatchesQueryIntended q) "beforeEnqueuedAt" = q.beforeEnqueuedAt.isSome ∧
      hasKey (serializeBatchesQueryIntended q) "beforeStartedAt" = q.beforeStartedAt.isSome ∧
      hasKey (serializeBatchesQueryIntended q) "beforeFinishedAt" = q.beforeFinishedAt.isSome ∧
      hasKey (serializeBatchesQueryIntended q) "afterEnqueuedAt" = q.afterEnqueuedAt.isSome ∧
      hasKey (serializeBatchesQueryIntended q) "afterStartedAt" = q.afterStartedAt.isSome ∧
      hasKey (serializeBatchesQueryIntended q) "afterFinishedAt" = q.afterFinishedAt.isSome) ∧
    ∀ c : ClientRef,
      serializeBatchesQueryIntended (BatchesQuery.new c) = [("reverse", ParamValue.bool false)] := by
  constructor
  · intro q
    refine ⟨?_, ?_, ?_, ?_, ?_, ?_, ?_, ?_, ?_, ?_, ?_, ?_, ?_, ?_⟩ <;>
      · rw [hasKey_serialize]; simp
  · intro c
    rfl

/-- Claim C3 (theorem recording the divergence): decoding the repository's own
single-batch test response `{"uid":99,"batchStrategy":"size_limit_reached",
"taskUids":[10,11]}` does not succeed — `Batch.stats` is a required field —
even though the repository's `test_get_batch_by_uid_parses_batch_strategy`
test and the spec's Scenario B expect it to yield a `Batch` with `uid = 99`. -/
theorem scenarioB_decode_fails :
    decodeBatch scenarioBJson = .error "missing field stats" := rfl

/-- Claim C4 (theorem recording the divergence): the frozen source defines no
query serialization at all — its derived `Serialize` is ill-typed (see the
module comment) — so no timestamp bound is ever encoded as anything, RFC 3339
included.  Independent of that compile error, the timestamp fields' own
declarations (`Option<OffsetDateTime>` with `skip_serializing_if` but no
`serialize_with`/`with` attribute) prescribe the `time` crate's default
human-readable `Serialize` for the bound's value, and that rendering
(space-separated, seconds-bearing offset) is not an RFC 3339 date-time,
while `src/batches.rs` itself uses RFC 3339 (`time::serde::rfc3339`) for
`Batch`'s own timestamps. -/
theorem timestampBound_wire_not_rfc3339 :
    datetimeParamWire sampleBound = "2024-10-11 11:49:53.0 +00:00:00" ∧
    isRfc3339DateTime (datetimeParamWire sampleBound) = false ∧
    isRfc3339DateTime "2024-10-11T11:49:53Z" = true :=
  ⟨rfl, rfl, rfl⟩

/-- Claim C5: the results envelope decoder accepts an empty `results` array
with `total = 0`, decodes absent `from`/`next` to `None`, and ignores fields
unknown to the client (an unknown field never changes the decode result). -/
theorem envelope_decoding_tolerances :
    decodeBatchesResults emptyEnvelopeJson =
      .ok ⟨[], 0, 2, none, none⟩ ∧
    decodeBatchesResults emptyEnvelopeExtraJson =
      .ok ⟨[], 0, 2, none, none⟩ ∧
    (∀ (fields : List (String × Json)) (r : BatchesResults),
      decodeBatchesResults (.obj fields) = .ok r →
      (lookupField fields "from" = none → r.fromCursor = none) ∧
      (lookupField fields "next" = none → r.nextCursor = none)) ∧
    (∀ (name : String) (v : Json) (fields : List (String × Json)),
      name ≠ "results" → name ≠ "total" → name ≠ "limit" →
      name ≠ "from" → name ≠ "next" →
      decodeBatchesResults (.obj ((name, v) :: fields)) =
        decodeBatchesResults (.obj fields)) := by
  refine ⟨rfl, rfl, ?_, ?_⟩
  · intro fields r h
    obtain ⟨hf, hn⟩ := decodeBatchesResults_ok_cursors h
    constructor
    · intro hnone
      rw [optU32Field, hnone] at hf
      simpa [decodeOptU32Val] using hf.symm
    · intro hnone
      rw [optU32Field, hnone] at hn
      simpa [decodeOptU32Val] using hn.symm
  · intro name v fields hr ht hl hf hn
    have l : ∀ k : String, name ≠ k →
        lookupField ((name, v) :: fields) k = lookupField fields k :=
      fun _ hk => lookupField_cons_ne hk
    simp only [decodeBatchesResults, arrField, reqField, optU32Field,
      l _ hr, l _ ht, l _ hl, l _ hf, l _ hn]

/-- Witness for C5: a concrete unknown field leaves decoding unchanged, and a
concrete envelope without `from` decodes it to `None`. -/
theorem envelope_decoding_tolerances_witness :
    decodeBatchesResults
        (.obj [("newServerField", Json.bool true), ("results", Json.arr []),
               ("limit", Json.num 2), ("total", Json.num 0)]) =
      decodeBatchesResults
        (.obj [("results", Json.arr []), ("limit", Json.num 2),
               ("total", Json.num 0)]) ∧
    (⟨[], 0, 2, none, none⟩ : BatchesResults).fromCursor = none :=
  ⟨envelope_decoding_tolerances.2.2.2 "newServerField" (Json.bool true)
      [("results", Json.arr []), ("limit", Json.num 2), ("total", Json.num 0)]
      (by decide) (by decide) (by decide) (by decide) (by decide),
   (envelope_decoding_tolerances.2.2.1
      [("results", Json.arr []), ("limit", Json.num 2), ("total", Json.num 0)]
      ⟨[], 0, 2, none, none⟩ rfl).1 rfl⟩

/-- Claim C6: `BatchesQuery::new(client)` binds the client and produces a
builder with every filter collection empty, every scalar optional (limit,
from, all six timestamp bounds) unset, and `reverse = false`. -/
theorem batchesQuery_new_defaults :
    ∀ c : ClientRef,
      (BatchesQuery.new c).client = c ∧
      (BatchesQuery.new c).uids = [] ∧
      (BatchesQuery.new c).batchUids = [] ∧
      (BatchesQuery.new c).indexUids = [] ∧
      (BatchesQuery.new c).statuses = Statuses.default ∧
      (BatchesQuery.new c).types = Types.default ∧
      (BatchesQuery.new c).statuses.isEmptyH = true ∧
      (BatchesQuery.new c).types.isEmptyH = true ∧
      (BatchesQuery.new c).limit = none ∧
      (BatchesQuery.new c).fromCursor = none ∧
      (BatchesQuery.new c).reverse = false ∧
      (BatchesQuery.new c).beforeEnqueuedAt = none ∧
      (BatchesQuery.new c).beforeStartedAt = none ∧
      (BatchesQuery.new c).beforeFinishedAt = none ∧
      (BatchesQuery.new c).afterEnqueuedAt = none ∧
      (BatchesQuery.new c).afterStartedAt = none ∧
      (BatchesQuery.new c).afterFinishedAt = none :=
  fun _ => ⟨rfl, rfl, rfl, rfl, rfl, rfl, rfl, rfl, rfl, rfl, rfl, rfl, rfl,
    rfl, rfl, rfl, rfl⟩

/-- Claim C7: serializing a `Statuses` or `Types` histogram and decoding the
result restores exactly the original: set categories keep their counts and
all other categories stay absent (`inRange` is the `u32` bound the Rust
field types guarantee). -/
theorem statuses_types_roundtrip :
    (∀ s : Statuses, s.inRange = true →
      decodeStatuses (encodeStatuses s) = .ok s) ∧
    (∀ t : Types, t.inRange = true →
      decodeTypes (encodeTypes t) = .ok t) :=
  ⟨decodeStatuses_encodeStatuses, decodeTypes_encodeTypes⟩

/-- Witness for C7: a partially-set histogram round-trips unchanged. -/
theorem statuses_types_roundtrip_witness :
    (⟨some 3, none, none, some 0, none⟩ : Statuses).inRange = true ∧
    decodeStatuses (encodeStatuses ⟨some 3, none, none, some 0, none⟩) =
      .ok ⟨some 3, none, none, some 0, none⟩ ∧
    decodeTypes (encodeTypes { Types.default with documentAdditionOrUpdate := some 7 }) =
      .ok { Types.default with documentAdditionOrUpdate := some 7 } :=
  ⟨rfl,
   statuses_types_roundtrip.1 ⟨some 3, none, none, some 0, none⟩ rfl,
   statuses_types_roundtrip.2 { Types.default with documentAdditionOrUpdate := some 7 } rfl⟩

/-- Claim C8: `with_limit` stores its argument in `limit` and `with_from`
stores its argument in `from`, each leaving every other builder field
unchanged; no validation is applied, so any value (zero included) is
stored as given. -/
theorem with_limit_with_from_frame :
    ∀ (q : BatchesQuery) (v : Nat),
      (q.with_limit v).limit = some v ∧
      (q.with_limit v).client = q.client ∧
      (q.with_limit v).uids = q.uids ∧
      (q.with_limit v).batchUids = q.batchUids ∧
      (q.with_limit v).indexUids = q.indexUids ∧
      (q.with_limit v).statuses = q.statuses ∧
      (q.with_limit v).types = q.types ∧
      (q.with_limit v).fromCursor = q.fromCursor ∧
      (q.with_limit v).reverse = q.reverse ∧
      (q.with_limit v).beforeEnqueuedAt = q.beforeEnqueuedAt ∧
      (q.with_limit v).beforeStartedAt = q.beforeStartedAt ∧
      (q.with_limit v).beforeFinishedAt = q.beforeFinishedAt ∧
      (q.with_limit v).afterEnqueuedAt = q.afterEnqueuedAt ∧
      (q.with_limit v).afterStartedAt = q.afterStartedAt ∧
      (q.with_limit v).afterFinishedAt = q.afterFinishedAt ∧
      (q.with_from v).fromCursor = some v ∧
      (q.with_from v).client = q.client ∧
      (q.with_from v).uids = q.uids ∧
      (q.with_from v).batchUids = q.batchUids ∧
      (q.with_from v).indexUids = q.indexUids ∧
      (q.with_from v).statuses = q.statuses ∧
      (q.with_from v).types = q.types ∧
      (q.with_from v).limit = q.limit ∧
      (q.with_from v).reverse = q.reverse ∧
      (q.with_from v).beforeEnqueuedAt = q.beforeEnqueuedAt ∧
      (q.with_from v).beforeStartedAt = q.beforeStartedAt ∧
      (q.with_from v).beforeFinishedAt = q.beforeFinishedAt ∧
      (q.with_from v).afterEnqueuedAt = q.afterEnqueuedAt ∧
      (q.with_from v).afterStartedAt = q.afterStartedAt ∧
      (q.with_from v).afterFinishedAt = q.afterFinishedAt :=
  fun _ _ => ⟨rfl, rfl, rfl, rfl, rfl, rfl, rfl, rfl, rfl, rfl, rfl, rfl, rfl,
    rfl, rfl, rfl, rfl, rfl, rfl, rfl, rfl, rfl, rfl, rfl, rfl, rfl, rfl, rfl,
    rfl, rfl⟩

/-- Claim C9: serializing each known `BatchStrategy` variant produces its
canonical snake_case wire string, and serializing the catch-all `Unknown`
variant produces the concrete string `"unknown"` (serde's `#[serde(other)]`
only affects deserialization; `Serialize` uses the renamed variant name). -/
theorem batchStrategy_wire_strings :
    BatchStrategy.toWire .sizeLimitReached = "size_limit_reached" ∧
    BatchStrategy.toWire .timeLimitReached = "time_limit_reached" ∧
    BatchStrategy.toWire .unknown = "unknown" :=
  ⟨rfl, rfl, rfl⟩

/-- Claim C10: decoding a `Batch` requires `stats` with all seven of its
sub-fields; a batch JSON lacking `stats`, lacking any of those sub-fields, or
lacking `uid` fails to decode, while `progress`, `duration`, `startedAt`,
`finishedAt` and `batchStrategy` may all be absent. -/
theorem batch_requires_stats :
    (∀ fields : List (String × Json), lookupField fields "stats" = none →
      exceptOk (decodeBatch (.obj fields)) = false) ∧
    (∀ (fields sfields : List (String × Json)),
      lookupField fields "stats" = some (.obj sfields) →
      (lookupField sfields "totalNbTasks" = none ∨
       lookupField sfields "status" = none ∨
       lookupField sfields "types" = none ∨
       lookupField sfields "indexedUids" = none ∨
       lookupField sfields "progressTrace" = none ∨
       lookupField sfields "writeChannelCongestion" = none ∨
       lookupField sfields "internalDatabaseSizes" = none) →
      exceptOk (decodeBatch (.obj fields)) = false) ∧
    (∀ fields : List (String × Json), lookupField fields "uid" = none →
      exceptOk (decodeBatch (.obj fields)) = false) ∧
    decodeBatch minimalBatchJson = .ok minimalBatchValue ∧
    exceptOk (decodeBatch batchJsonNoSizes) = false := by
  refine ⟨?_, ?_, ?_, rfl, rfl⟩
  · intro fields hnone
    cases hOk : exceptOk (decodeBatch (.obj fields)) with
    | false => rfl
    | true =>
      obtain ⟨j, hj, -⟩ := decodeBatch_ok_stats hOk
      rw [hnone] at hj
      exact Option.noConfusion hj
  · intro fields sfields hstats hmiss
    cases hOk : exceptOk (decodeBatch (.obj fields)) with
    | false => rfl
    | true =>
      obtain ⟨j, hj, hstatsOk⟩ := decodeBatch_ok_stats hOk
      rw [hstats] at hj
      injection hj with hj
      rw [← hj] at hstatsOk
      have hfields := decodeBatchStats_ok_fields hstatsOk
      rcases hmiss with h | h | h | h | h | h | h <;> simp [h] at hfields
  · intro fields hnone
    cases hOk : exceptOk (decodeBatch (.obj fields)) with
    | false => rfl
    | true =>
      have hs := decodeBatch_ok_uid hOk
      rw [hnone] at hs
      simp at hs

/-- Witness for C10: the stats-less test response fails, and a stats object
missing `internalDatabaseSizes` fails. -/
theorem batch_requires_stats_witness :
    lookupField [("uid", Json.num 99)] "stats" = none ∧
    exceptOk (decodeBatch (.obj [("uid", Json.num 99)])) = false ∧
    exceptOk (decodeBatch (.obj [("uid", Json.num 7),
      ("stats", Json.obj [("totalNbTasks", Json.num 2)])])) = false :=
  ⟨rfl,
   batch_requires_stats.1 [("uid", Json.num 99)] rfl,
   batch_requires_stats.2.1 [("uid", Json.num 7),
      ("stats", Json.obj [("totalNbTasks", Json.num 2)])]
     [("totalNbTasks", Json.num 2)] rfl (Or.inr (Or.inl rfl))⟩

end MeiliBatches
